import Mathlib

/-!
Verification of the dotto dependency-graph tool's Intent Drift Detector and
git Snapshot Comparator against their natural-language specification.

The definitions below are a shallow embedding of the TypeScript sources:
`IntentDriftDetector` (src/unnamed/part_004) and `GitScanner`
(src/src/git/GitScanner.ts).  JavaScript numbers are modelled twice: as
exact arithmetic (ℚ for the rational parts, ℝ where `Math.sqrt` appears)
for the properties that do not depend on rounding, and as IEEE-754
binary64 (the `FP` section) for the properties whose truth hinges on the
doubles' rounding.  Strings are Lean `String`s over their character lists
(the ASCII fragment of the UTF-16/Unicode behaviour of the original).
-/

namespace Dotto

/-! ## Intent Drift Detector (src/unnamed/part_004, class IntentDriftDetector) -/

/-- JavaScript `\w` character class (ASCII): letters, digits, underscore. -/
def isWordChar (c : Char) : Bool :=
  (('a' ≤ c && c ≤ 'z') || ('A' ≤ c && c ≤ 'Z') || ('0' ≤ c && c ≤ '9') || c = '_')

/-- JavaScript `\s` character class (ASCII fragment): space, tab, newline,
vertical tab, form feed, carriage return. -/
def isSpaceChar (c : Char) : Bool :=
  (c = ' ' || c = '\t' || c = '\n' || c = '\r' || c = Char.ofNat 11 || c = Char.ofNat 12)

/-- One step of `.replace(/[^\w\s]/g, ' ')`: a character that is neither a
word character nor whitespace becomes a space. -/
def punctToSpace (c : Char) : Char :=
  if !isWordChar c && !isSpaceChar c then ' ' else c

/-- `.replace(/\s+/g, ' ')`: every maximal run of whitespace characters is
replaced by a single space. -/
def collapseWs : List Char → List Char
  | [] => []
  | [c] => if isSpaceChar c then [' '] else [c]
  | c :: d :: rest =>
    if isSpaceChar c && isSpaceChar d then collapseWs (d :: rest)
    else (if isSpaceChar c then ' ' else c) :: collapseWs (d :: rest)

/-- Drop leading and trailing spaces (`.trim()` on a string whose only
whitespace is the plain space left by `collapseWs`). -/
def trimSpaces (l : List Char) : List Char :=
  ((l.dropWhile (fun c => c = ' ')).reverse.dropWhile (fun c => c = ' ')).reverse

/-- `.toLowerCase()` (ASCII fragment), character by character. -/
def toLowerStr (text : String) : String :=
  String.mk (text.data.map Char.toLower)

/-- `IntentDriftDetector.normalize`: lowercase, strip punctuation to spaces,
collapse whitespace runs, trim. -/
def normalize (text : String) : String :=
  String.mk (trimSpaces (collapseWs ((toLowerStr text).data.map punctToSpace)))

/-- JavaScript `str.split(sep)` for a one-character separator (split on
every occurrence; the empty string yields `[""]`). -/
def splitChars (sep : Char) : List Char → List (List Char)
  | [] => [[]]
  | c :: rest =>
    let r := splitChars sep rest
    if c = sep then [] :: r
    else
      match r with
      | [] => [[c]]
      | w :: ws => (c :: w) :: ws

/-- The word list of a (normalized) text, as in `text.split(' ')`. -/
def wordsOf (t : String) : List String :=
  (splitChars ' ' t.data).map String.mk

/-- The word set of a text (JS `new Set(text.split(' '))`). -/
def wordSet (t : String) : Finset String :=
  (wordsOf t).toFinset

/-- `IntentDriftDetector.jaccardSimilarity`: |intersection| / |union| of the
two word sets, 0 when the union is empty. -/
def jaccardSimilarity (text1 text2 : String) : ℚ :=
  let words1 := wordSet text1
  let words2 := wordSet text2
  let inter := words1 ∩ words2
  let union := words1 ∪ words2
  if union.card = 0 then 0 else (inter.card : ℚ) / (union.card : ℚ)

/-- `IntentDriftDetector.buildTFVector` looked up at one word: the term
frequency of `w` in the word list. -/
def termFreq (ws : List String) (w : String) : ℕ :=
  ws.count w

/-- The vocabulary of the two word lists (JS `new Set([...words1, ...words2])`). -/
def vocabOf (ws1 ws2 : List String) : Finset String :=
  (ws1 ++ ws2).toFinset

/-- The dot product accumulated by `cosineSimilarity`'s loop. -/
def dotTF (ws1 ws2 : List String) : ℕ :=
  ∑ w ∈ vocabOf ws1 ws2, termFreq ws1 w * termFreq ws2 w

/-- The squared-magnitude sums `mag1`/`mag2` accumulated by
`cosineSimilarity`'s loop (parameterised by the shared vocabulary). -/
def magTF (vocab : Finset String) (ws : List String) : ℕ :=
  ∑ w ∈ vocab, termFreq ws w * termFreq ws w

open scoped Classical in
/-- `IntentDriftDetector.cosineSimilarity`: term-frequency cosine over the
shared vocabulary; 0 when the magnitude product is 0.  Exact-arithmetic
idealization of the source's doubles; `cosineSimilarityFP` below is the
rounding-faithful counterpart. -/
noncomputable def cosineSimilarity (text1 text2 : String) : ℝ :=
  let ws1 := wordsOf text1
  let ws2 := wordsOf text2
  let vocab := vocabOf ws1 ws2
  let dotProduct : ℝ := (dotTF ws1 ws2 : ℝ)
  let mag1 : ℝ := (magTF vocab ws1 : ℝ)
  let mag2 : ℝ := (magTF vocab ws2 : ℝ)
  let magnitude := Real.sqrt mag1 * Real.sqrt mag2
  if magnitude = 0 then 0 else dotProduct / magnitude

/-- `IntentDriftDetector.levenshteinDistance`: the value `dp[m][n]` of the
dynamic-programming matrix, given here by the recurrence the matrix fill
implements (`dp[i][0] = i`, `dp[0][j] = j`, and `dp[i][j]` is `dp[i-1][j-1]`
on equal characters, else `1 + min` of deletion, insertion, substitution). -/
def levDist : List Char → List Char → ℕ
  | [], ys => ys.length
  | x :: xs, [] => (x :: xs).length
  | x :: xs, y :: ys =>
    if x = y then levDist xs ys
    else 1 + min (levDist xs (y :: ys)) (min (levDist (x :: xs) ys) (levDist xs ys))
  termination_by xs ys => xs.length + ys.length

/-- `IntentDriftDetector.levenshteinDistance` on strings. -/
def levenshteinDistance (str1 str2 : String) : ℕ :=
  levDist str1.data str2.data

/-- `IntentDriftDetector.levenshteinSimilarity`: `1 - distance/maxLen`,
and 1 when both strings are empty. -/
def levenshteinSimilarity (text1 text2 : String) : ℚ :=
  let distance := levenshteinDistance text1 text2
  let maxLen := max text1.length text2.length
  if maxLen = 0 then 1 else 1 - (distance : ℚ) / (maxLen : ℚ)

/-- `IntentDriftDetector.calculateSimilarity`: weighted average of Jaccard
and cosine over the normalized texts and Levenshtein over the raw texts.
Exact-arithmetic idealization of the source's doubles;
`calculateSimilarityFP` below is the rounding-faithful counterpart. -/
noncomputable def calculateSimilarity (intent1 intent2 : String) : ℝ :=
  let norm1 := normalize intent1
  let norm2 := normalize intent2
  let jacc : ℝ := (jaccardSimilarity norm1 norm2 : ℝ)
  let cosine : ℝ := cosineSimilarity norm1 norm2
  let leven : ℝ := (levenshteinSimilarity intent1 intent2 : ℝ)
  (jacc * 0.4) + (cosine * 0.4) + (leven * 0.2)

/-- Drift severity buckets. -/
inductive Severity where
  | high
  | medium
  | low
  deriving DecidableEq, Repr

open scoped Classical in
/-- `IntentDriftDetector.determineSeverity`. -/
noncomputable def determineSeverity (similarity : ℝ) : Severity :=
  if similarity < 0.50 then .high
  else if similarity < 0.70 then .medium
  else .low

/-- JavaScript truthiness of a `string | undefined` value: `undefined` and
the empty string are falsy. -/
def truthy (o : Option String) : Bool :=
  match o with
  | none => false
  | some s => decide (s ≠ "")

/-- JavaScript `a || b` for a `string | undefined` left operand. -/
def jsOr (o : Option String) (dflt : String) : String :=
  match o with
  | none => dflt
  | some s => if s = "" then dflt else s

open scoped Classical in
/-- `IntentDriftDetector.explainDrift`: list up to three removed and three
added normalized tokens, then a qualitative tag per severity bucket. -/
noncomputable def explainDrift (oldIntent newIntent : String) (similarity : ℝ) : String :=
  let oldWords := wordsOf (normalize oldIntent)
  let newWords := wordsOf (normalize newIntent)
  let added := (newWords.eraseDups).filter (fun w => decide (w ∉ oldWords))
  let removed := (oldWords.eraseDups).filter (fun w => decide (w ∉ newWords))
  let parts : List String :=
    (if removed.length > 0 then
      ["Removed concepts: " ++ String.intercalate ", " (removed.take 3)] else [])
    ++ (if added.length > 0 then
      ["Added concepts: " ++ String.intercalate ", " (added.take 3)] else [])
    ++ [if similarity < 0.50 then "Fundamental semantic change detected"
        else if similarity < 0.70 then "Moderate semantic shift"
        else "Minor wording change"]
  String.intercalate ". " parts

/-- The `IntentDrift` record.  The JavaScript boolean `isDrift` is embedded
as the proposition it is computed from. -/
structure IntentDrift where
  nodeId : String
  oldIntent : String
  newIntent : String
  similarity : ℝ
  isDrift : Prop
  severity : Severity
  explanation : String

/-- The constructor default threshold (`similarityThreshold = 0.80`). -/
noncomputable def defaultThreshold : ℝ := 0.80

/-- `IntentDriftDetector.detectDrift` at the default threshold.  `undefined`
is `none`; the JS falsy tests `!oldIntent` / `!newIntent` are `truthy`. -/
noncomputable def detectDrift (nodeId : String)
    (oldIntent newIntent : Option String) : Option IntentDrift :=
  if !truthy oldIntent && !truthy newIntent then none
  else if oldIntent = newIntent then none
  else if !truthy oldIntent || !truthy newIntent then
    some { nodeId := nodeId
           oldIntent := jsOr oldIntent "(none)"
           newIntent := jsOr newIntent "(none)"
           similarity := 0
           isDrift := True
           severity := .medium
           explanation := if truthy oldIntent then "Intent removed" else "Intent added" }
  else
    let o := oldIntent.getD ""
    let n := newIntent.getD ""
    let similarity := calculateSimilarity o n
    some { nodeId := nodeId
           oldIntent := o
           newIntent := n
           similarity := similarity
           isDrift := similarity < defaultThreshold
           severity := determineSeverity similarity
           explanation := explainDrift o n similarity }

/-- The spec's `NormalizedLevenshtein(old, new)` — edit distance divided by
the longer raw length (`ℚ` division by zero is zero, covering two empty
strings). -/
def specNormalizedLevenshtein (a b : String) : ℚ :=
  (levenshteinDistance a b : ℚ) / ((max a.length b.length : ℕ) : ℚ)

/-- The spec's similarity formula, written from its words:
`0.4·Jaccard(normalize(old), normalize(new)) +
 0.4·CosineTF(normalize(old), normalize(new)) +
 0.2·(1 − NormalizedLevenshtein(old, new))`. -/
noncomputable def specSimilarity (a b : String) : ℝ :=
  0.4 * (jaccardSimilarity (normalize a) (normalize b) : ℝ)
    + 0.4 * cosineSimilarity (normalize a) (normalize b)
    + 0.2 * (1 - (specNormalizedLevenshtein a b : ℝ))

/-! ## Snapshot Comparator (src/src/git/GitScanner.ts, class GitScanner)

The git repository is abstracted as a state `⟨head, workTree, stash⟩`:
which ref is checked out, the working-tree content (a number standing for
the bytes — bit-identical means equal), and the stash stack of saved
working-tree contents.  Each `execSync` call's external outcome (success or
failure, and the text git prints) is supplied by an environment record, one
field per call site, so every combination of external behaviours is a model
input. -/

/-- `a.endsWith(b)` on the underlying character lists. -/
def strEndsWith (s suffix : String) : Bool :=
  go suffix.data.reverse s.data.reverse
where
  go : List Char → List Char → Bool
    | [], _ => true
    | _ :: _, [] => false
    | a :: as, b :: bs => a = b && go as bs

/-- `GitScanner.isSchemaFile`: the five case-insensitive filename regexes,
each a suffix test on the lowercased path. -/
def isSchemaFile (filePath : String) : Bool :=
  let lc := toLowerStr filePath
  (strEndsWith lc ".dto.ts" || strEndsWith lc ".schema.ts" || strEndsWith lc ".interface.ts")
    || strEndsWith lc "dto.ts"
    || strEndsWith lc "schema.ts"
    || strEndsWith lc "interface.ts"
    || (strEndsWith lc ".openapi.json" || strEndsWith lc ".openapi.yaml"
        || strEndsWith lc ".openapi.yml" || strEndsWith lc ".swagger.json"
        || strEndsWith lc ".swagger.yaml" || strEndsWith lc ".swagger.yml")

/-- The extension filter inside `GitScanner.getChangedFilesBetweenCommits`
(`endsWith` is case-sensitive in JavaScript). -/
def isCommitRangeCandidate (f : String) : Bool :=
  strEndsWith f ".ts" || strEndsWith f ".tsx" || strEndsWith f ".json"
    || strEndsWith f ".yaml" || strEndsWith f ".yml"

/-- `f.trim().length > 0`: some character survives trimming, i.e. the line
is not all whitespace. -/
def hasNonWs (f : String) : Bool :=
  f.data.any (fun c => !isSpaceChar c)

/-- Shared post-processing of `git diff --name-only` output: split on
newlines and drop lines that are empty after trimming. -/
def splitDiffOutput (out : String) : List String :=
  ((splitChars '\n' out.data).map String.mk).filter hasNonWs

/-- `GitScanner.getChangedFilesBetweenCommits` applied to the raw diff
output; a failed `git diff` (`none`) is swallowed into `[]`. -/
def getChangedFilesBetweenCommits (diffOut : Option String) : List String :=
  match diffOut with
  | none => []
  | some out => (splitDiffOutput out).filter isCommitRangeCandidate

/-- `GitScanner.getWorkingDirectoryChanges` applied to the raw
`git diff --name-only HEAD` output; a failure is swallowed into `[]`. -/
def getWorkingDirectoryChanges (diffOut : Option String) : List String :=
  match diffOut with
  | none => []
  | some out => (splitDiffOutput out).filter isSchemaFile

/-- The abstract git repository state: checked-out ref, working-tree
content, stash stack (top first). -/
structure RepoState where
  head : String
  workTree : ℕ
  stash : List ℕ
  deriving DecidableEq, Repr

/-- Git-state-mutating commands the scanner issues, recorded as a trace. -/
inductive GitEffect where
  | checkoutCmd (target : String)
  | stashPushCmd
  | stashPopCmd
  deriving DecidableEq, Repr

/-- `GitComparisonResult`. The diff payload is abstracted to a list of
numbers produced by the environment's diff function. -/
structure GitComparisonResult where
  baseCommit : String
  headCommit : String
  diffs : List ℕ
  filesChanged : List String
  deriving DecidableEq, Repr

/-- External outcomes for one `scanUncommittedChanges` run, one field per
`execSync`/crawl call site. -/
structure WtEnv where
  /-- `git rev-parse HEAD` output, `none` when the command fails. -/
  revParseHead : Option String
  /-- `git diff --name-only HEAD` output, `none` when the command fails. -/
  diffHeadOut : Option String
  /-- whether `git stash push -u` exits successfully. -/
  stashPushOk : Bool
  /-- whether the baseline crawl succeeds. -/
  baseCrawlOk : Bool
  /-- whether the in-flow `git stash pop` exits successfully. -/
  popOk : Bool
  /-- whether the head crawl succeeds. -/
  headCrawlOk : Bool
  /-- whether the catch-handler `git stash pop` exits successfully. -/
  catchPopOk : Bool
  /-- the committed content of `HEAD` (what the tree holds once stashed). -/
  baselineContent : ℕ
  /-- `diffMany` of the two crawled contents, abstracted. -/
  diffOf : ℕ → ℕ → List ℕ

/-- `GitScanner.getCurrentCommit`: `git rev-parse HEAD`, its failure turned
into a thrown error. -/
def getCurrentCommit (revParseHead : Option String) : Except String String :=
  match revParseHead with
  | none => .error "Not a git repository or git not available"
  | some h => .ok h

/-- `GitScanner.stashChanges`: `git stash push -u`.  When the command
succeeds and the tree differs from the committed content it saves an entry
and cleans the tree; with a clean tree git reports "No local changes to
save" and still exits 0; a failing command is swallowed into `false`. -/
def stashChanges (pushOk : Bool) (baseline : ℕ) (s : RepoState) :
    Bool × RepoState × List GitEffect :=
  if pushOk then
    if s.workTree ≠ baseline then
      (true, { s with workTree := baseline, stash := s.workTree :: s.stash },
       [.stashPushCmd])
    else (true, s, [.stashPushCmd])
  else (false, s, [.stashPushCmd])

/-- `GitScanner.unstashChanges`: `git stash pop`; restores the top entry
into the tree.  A failing pop (command failure or empty stash) is caught
and only warned about — the state is left as is and no error escapes. -/
def unstashChanges (popOk : Bool) (s : RepoState) : RepoState × List GitEffect :=
  if popOk then
    match s.stash with
    | [] => (s, [.stashPopCmd])
    | t :: rest => ({ s with workTree := t, stash := rest }, [.stashPopCmd])
  else (s, [.stashPopCmd])

/-- `GitScanner.scanUncommittedChanges`: the working-tree comparison mode,
returning the thrown-or-returned outcome, the final repository state and
the trace of state-mutating git commands. -/
def scanUncommittedChanges (env : WtEnv) (s0 : RepoState) :
    Except String GitComparisonResult × RepoState × List GitEffect :=
  match getCurrentCommit env.revParseHead with
  | .error e => (.error e, s0, [])
  | .ok headCommit =>
    let filesChanged := getWorkingDirectoryChanges env.diffHeadOut
    if filesChanged.isEmpty then
      (.ok ⟨headCommit, "working-directory", [], []⟩, s0, [])
    else
      let (hasStash, s1, t1) := stashChanges env.stashPushOk env.baselineContent s0
      if !env.baseCrawlOk then
        -- the baseline crawl throws; the catch handler pops when `hasStash`
        if hasStash then
          let (s2, t2) := unstashChanges env.catchPopOk s1
          (.error "crawl failed", s2, t1 ++ t2)
        else (.error "crawl failed", s1, t1)
      else
        let baseContent := s1.workTree
        let (s2, t2) := if hasStash then unstashChanges env.popOk s1 else (s1, [])
        if !env.headCrawlOk then
          -- the head crawl throws; the catch handler pops again when `hasStash`
          if hasStash then
            let (s3, t3) := unstashChanges env.catchPopOk s2
            (.error "crawl failed", s3, t1 ++ t2 ++ t3)
          else (.error "crawl failed", s2, t1 ++ t2)
        else
          let diffs := env.diffOf baseContent s2.workTree
          (.ok ⟨headCommit, "working-directory", diffs, filesChanged⟩, s2, t1 ++ t2)

/-- External outcomes for one `scanCommitRange` run. -/
structure CrEnv where
  /-- `git rev-parse <ref>` per ref, `none` when unresolvable. -/
  revParse : String → Option String
  /-- `git diff --name-only base head` output, `none` when it fails. -/
  diffOut : Option String
  /-- whether `git rev-parse --abbrev-ref HEAD` exits successfully. -/
  abbrevRefOk : Bool
  /-- whether the checked-out ref is a branch (abbrev-ref then prints its
  name; on a detached HEAD it prints the literal "HEAD"). -/
  isBranch : Bool
  /-- the committed tree content of each commit/branch. -/
  contentOf : String → ℕ
  /-- whether `git checkout <target>` exits successfully, per target. -/
  checkoutOk : String → Bool
  /-- whether the base crawl succeeds. -/
  baseCrawlOk : Bool
  /-- whether the head crawl succeeds. -/
  headCrawlOk : Bool
  /-- `diffMany` of the two crawled contents, abstracted. -/
  diffOf : ℕ → ℕ → List ℕ

/-- `GitScanner.resolveRef`: `git rev-parse <ref>`, failure thrown. -/
def resolveRef (env : CrEnv) (ref : String) : Except String String :=
  match env.revParse ref with
  | none => .error ("Failed to resolve git ref: " ++ ref)
  | some c => .ok c

/-- `GitScanner.getCurrentBranch`: the branch name, or the literal "HEAD"
when detached or when the command fails. -/
def getCurrentBranch (env : CrEnv) (s : RepoState) : String :=
  if env.abbrevRefOk then (if env.isBranch then s.head else "HEAD") else "HEAD"

/-- `git checkout <target>`: on success moves `head` and the working tree
to the target's content (`git checkout HEAD` leaves the state as is); on
failure the state is untouched and the error propagates. -/
def checkout (env : CrEnv) (target : String) (s : RepoState) :
    Except String RepoState × List GitEffect :=
  if env.checkoutOk target then
    if target = "HEAD" then (.ok s, [.checkoutCmd target])
    else (.ok ⟨target, env.contentOf target, s.stash⟩, [.checkoutCmd target])
  else (.error "checkout failed", [.checkoutCmd target])

/-- The `try` body of `scanCommitRange`: crawl the base, checkout the head
commit, crawl the head, diff. -/
def crBody (env : CrEnv) (headCommit : String) (s1 : RepoState) :
    Except String (List ℕ) × RepoState × List GitEffect :=
  if !env.baseCrawlOk then (.error "crawl failed", s1, [])
  else
    let baseContent := s1.workTree
    match checkout env headCommit s1 with
    | (.error e, t) => (.error e, s1, t)
    | (.ok s2, t) =>
      if !env.headCrawlOk then (.error "crawl failed", s2, t)
      else (.ok (env.diffOf baseContent s2.workTree), s2, t)

/-- `GitScanner.scanCommitRange`: the commit-range comparison mode.  The
final `git checkout <currentBranch>` is the `finally` restoration step: it
always runs once the base checkout succeeded, and its own failure is
surfaced. -/
def scanCommitRange (env : CrEnv) (baseRef headRef : String) (s0 : RepoState) :
    Except String GitComparisonResult × RepoState × List GitEffect :=
  match resolveRef env baseRef with
  | .error e => (.error e, s0, [])
  | .ok baseCommit =>
    match resolveRef env headRef with
    | .error e => (.error e, s0, [])
    | .ok headCommit =>
      let filesChanged := getChangedFilesBetweenCommits env.diffOut
      if filesChanged.isEmpty then
        (.ok ⟨baseCommit, headCommit, [], []⟩, s0, [])
      else
        let currentBranch := getCurrentBranch env s0
        match checkout env baseCommit s0 with
        | (.error e, t1) => (.error e, s0, t1)
        | (.ok s1, t1) =>
          let (r, s2, t2) := crBody env headCommit s1
          match checkout env currentBranch s2 with
          | (.error e, t3) => (.error e, s2, t1 ++ t2 ++ t3)
          | (.ok s3, t3) =>
            match r with
            | .error e => (.error e, s3, t1 ++ t2 ++ t3)
            | .ok diffs =>
              (.ok ⟨baseCommit, headCommit, diffs, filesChanged⟩, s3, t1 ++ t2 ++ t3)

/-! ## IEEE-754 binary64 model of the JavaScript numerics

JavaScript numbers are IEEE-754 binary64 ("doubles").  The exact-arithmetic
definitions above idealize them; this section models the doubles
themselves, to settle the properties whose truth depends on rounding.  A
finite double is a dyadic `m · 2^e`; every arithmetic operation rounds its
exact result to 53 significant bits, to nearest, ties to even (`Math.sqrt`
is correctly rounded by the ECMAScript spec).  The exponent is not bounded
here: all values in the evaluations below are far inside the finite double
range and no subnormals occur. -/

/-- A finite binary64 value `m · 2^e`, kept normalized: `m = 0` (the zero)
or `2^52 ≤ |m| < 2^53`, so each value has one representation. -/
structure FP where
  m : ℤ
  e : ℤ
  deriving DecidableEq, Repr

/-- Bit length of a natural number, with explicit fuel so that it
evaluates inside the kernel (4096 covers every number below `2^4096`). -/
def bitLenAux : ℕ → ℕ → ℕ
  | 0, _ => 0
  | fuel + 1, n => if n = 0 then 0 else bitLenAux fuel (n / 2) + 1

def bitLen (n : ℕ) : ℕ := bitLenAux 4096 n

/-- Integer square root `⌊√n⌋` by Newton iteration from the upper bound
`n`, stopping at the first non-decrease, with explicit fuel (the iterate
at least halves while above `√n`, so 4096 steps cover `n < 2^4096`). -/
def isqrtAux : ℕ → ℕ → ℕ → ℕ
  | 0, _, g => g
  | fuel + 1, n, g =>
    let g1 := (g + n / g) / 2
    if g1 < g then isqrtAux fuel n g1 else g

def isqrt (n : ℕ) : ℕ := if n ≤ 1 then n else isqrtAux 4096 n n

/-- Round the exact value `num · 2^e` to the nearest binary64, ties to
even; `sticky` records that the exact value sits strictly beyond
`num · 2^e` by less than one unit of `num` (used for division). -/
def roundFPSticky (num : ℤ) (e : ℤ) (sticky : Bool) : FP :=
  if num = 0 then ⟨0, 0⟩
  else
    let sign : ℤ := if num < 0 then -1 else 1
    let a := num.natAbs
    let L := bitLen a
    if L ≤ 53 then
      ⟨sign * ((a * 2 ^ (53 - L) : ℕ) : ℤ), e - ((53 - L : ℕ) : ℤ)⟩
    else
      let shift := L - 53
      let q := a / 2 ^ shift
      let r := a % 2 ^ shift
      let half := 2 ^ (shift - 1)
      let up : Bool :=
        if r > half then true
        else if r < half then false
        else if sticky then true
        else q % 2 = 1
      let mq := if up then q + 1 else q
      if mq = 2 ^ 53 then ⟨sign * ((2 ^ 52 : ℕ) : ℤ), e + (shift : ℤ) + 1⟩
      else ⟨sign * (mq : ℤ), e + (shift : ℤ)⟩

/-- Round an exact dyadic `num · 2^e` to the nearest binary64. -/
def roundFP (num : ℤ) (e : ℤ) : FP := roundFPSticky num e false

/-- The double holding a (small) natural number exactly. -/
def FP.ofNat (n : ℕ) : FP := roundFP (n : ℤ) 0

/-- The rational value of a binary64. -/
def FP.toRat (a : FP) : ℚ :=
  if 0 ≤ a.e then (a.m : ℚ) * ((2 ^ a.e.toNat : ℕ) : ℚ)
  else (a.m : ℚ) / ((2 ^ (-a.e).toNat : ℕ) : ℚ)

/-- Binary64 addition: exact sum, then one rounding. -/
def fpAdd (a b : FP) : FP :=
  if a.m = 0 then b
  else if b.m = 0 then a
  else
    let e := min a.e b.e
    roundFP (a.m * ((2 ^ (a.e - e).toNat : ℕ) : ℤ)
      + b.m * ((2 ^ (b.e - e).toNat : ℕ) : ℤ)) e

/-- Binary64 negation (exact). -/
def fpNeg (a : FP) : FP := ⟨-a.m, a.e⟩

/-- Binary64 subtraction. -/
def fpSub (a b : FP) : FP := fpAdd a (fpNeg b)

/-- Binary64 multiplication: exact product, then one rounding. -/
def fpMul (a b : FP) : FP :=
  if a.m = 0 ∨ b.m = 0 then ⟨0, 0⟩
  else roundFP (a.m * b.m) (a.e + b.e)

/-- Binary64 division, correctly rounded: 60 guard bits plus a sticky bit
decide the rounding of the exact quotient. -/
def fpDiv (a b : FP) : FP :=
  if a.m = 0 ∨ b.m = 0 then ⟨0, 0⟩
  else
    let sign : ℤ := if (a.m < 0) = (b.m < 0) then 1 else -1
    let A := a.m.natAbs * 2 ^ 60
    let B := b.m.natAbs
    let q := A / B
    let r := A % B
    roundFPSticky (sign * (q : ℤ)) (a.e - b.e - 60) (r != 0)

/-- Binary64 square root, correctly rounded (the nearest integer to
`√(n2 · 2^104)` is the 53-bit mantissa; a tie would need an integer equal
to an odd square over 4, which cannot happen). -/
def fpSqrt (a : FP) : FP :=
  if a.m ≤ 0 then ⟨0, 0⟩
  else
    let n2 : ℕ := if a.e % 2 = 0 then a.m.natAbs else 2 * a.m.natAbs
    let e2 : ℤ := if a.e % 2 = 0 then a.e else a.e - 1
    let X := n2 * 2 ^ 52
    let m0 := isqrt X
    let mq := if X ≤ m0 * (m0 + 1) then m0 else m0 + 1
    let E := e2 / 2 - 26
    if mq = 2 ^ 53 then ⟨((2 ^ 52 : ℕ) : ℤ), E + 1⟩ else ⟨(mq : ℤ), E⟩

/-- The double written `0.4` in the source (`3602879701896397 · 2^-53`). -/
def fpPoint4 : FP := ⟨3602879701896397, -53⟩

/-- The double written `0.2` in the source (`3602879701896397 · 2^-54`). -/
def fpPoint2 : FP := ⟨3602879701896397, -54⟩

/-- `IntentDriftDetector.jaccardSimilarity` in binary64: the set sizes are
exact integers; the one division rounds. -/
def jaccardSimilarityFP (text1 text2 : String) : FP :=
  let words1 := wordSet text1
  let words2 := wordSet text2
  let inter := words1 ∩ words2
  let union := words1 ∪ words2
  if union.card = 0 then ⟨0, 0⟩
  else fpDiv (FP.ofNat inter.card) (FP.ofNat union.card)

/-- `IntentDriftDetector.cosineSimilarity` in binary64.  The
`for (const word of vocab)` loop accumulates in the vocabulary's JS `Set`
insertion order — first occurrence in `[...words1, ...words2]`, here
`List.eraseDups` — which matters once each `+=` rounds. -/
def cosineSimilarityFP (text1 text2 : String) : FP :=
  let ws1 := wordsOf text1
  let ws2 := wordsOf text2
  let vocab := (ws1 ++ ws2).eraseDups
  let acc := vocab.foldl
    (fun (p : FP × FP × FP) w =>
      let v1 := FP.ofNat (termFreq ws1 w)
      let v2 := FP.ofNat (termFreq ws2 w)
      (fpAdd p.1 (fpMul v1 v2), fpAdd p.2.1 (fpMul v1 v1), fpAdd p.2.2 (fpMul v2 v2)))
    (⟨0, 0⟩, ⟨0, 0⟩, ⟨0, 0⟩)
  let magnitude := fpMul (fpSqrt acc.2.1) (fpSqrt acc.2.2)
  if magnitude.m = 0 then ⟨0, 0⟩ else fpDiv acc.1 magnitude

/-- `IntentDriftDetector.levenshteinSimilarity` in binary64: the distance
and lengths are exact integers; division and subtraction round. -/
def levenshteinSimilarityFP (text1 text2 : String) : FP :=
  let distance := levenshteinDistance text1 text2
  let maxLen := max text1.length text2.length
  if maxLen = 0 then FP.ofNat 1
  else fpSub (FP.ofNat 1) (fpDiv (FP.ofNat distance) (FP.ofNat maxLen))

/-- `IntentDriftDetector.calculateSimilarity` in binary64, with the
source's left-associated evaluation order
`(jacc * 0.4) + (cosine * 0.4) + (leven * 0.2)`. -/
def calculateSimilarityFP (intent1 intent2 : String) : FP :=
  let norm1 := normalize intent1
  let norm2 := normalize intent2
  let jacc := jaccardSimilarityFP norm1 norm2
  let cosine := cosineSimilarityFP norm1 norm2
  let leven := levenshteinSimilarityFP intent1 intent2
  fpAdd (fpAdd (fpMul jacc fpPoint4) (fpMul cosine fpPoint4)) (fpMul leven fpPoint2)

/-! ## General lemmas about the Intent Drift Detector -/

theorem splitChars_ne_nil (sep : Char) (l : List Char) : splitChars sep l ≠ [] := by
  induction l with
  | nil => simp [splitChars]
  | cons c rest ih =>
    simp only [splitChars]
    split_ifs
    · simp
    · match h : splitChars sep rest with
      | [] => simp
      | w :: ws => simp

theorem wordsOf_ne_nil (t : String) : wordsOf t ≠ [] := by
  simp [wordsOf, splitChars_ne_nil]

theorem wordSet_card_pos (t : String) : 0 < (wordSet t).card := by
  rw [Finset.card_pos, wordSet]
  have h := wordsOf_ne_nil t
  exact ⟨(wordsOf t).head h, by simp [List.mem_toFinset, List.head_mem]⟩

theorem jaccardSimilarity_self (t : String) : jaccardSimilarity t t = 1 := by
  have h := wordSet_card_pos t
  simp only [jaccardSimilarity, Finset.inter_self, Finset.union_self]
  rw [if_neg (by omega)]
  rw [div_self (by exact_mod_cast h.ne')]

theorem one_le_magTF (ws1 ws2 : List String) (h : ws1 ≠ []) :
    1 ≤ magTF (vocabOf ws1 ws2) ws1 := by
  have hw : ws1.head h ∈ ws1 := List.head_mem h
  have hv : ws1.head h ∈ vocabOf ws1 ws2 := by
    simp [vocabOf, List.mem_toFinset, hw]
  have htf : 1 ≤ termFreq ws1 (ws1.head h) := List.count_pos_iff.mpr hw
  unfold magTF
  calc 1 ≤ termFreq ws1 (ws1.head h) * termFreq ws1 (ws1.head h) :=
        Nat.one_le_iff_ne_zero.mpr (by positivity)
    _ ≤ _ := Finset.single_le_sum (f := fun w => termFreq ws1 w * termFreq ws1 w)
        (fun w _ => Nat.zero_le _) hv

theorem cosineSimilarity_self (t : String) : cosineSimilarity t t = 1 := by
  simp only [cosineSimilarity]
  have hM : 1 ≤ magTF (vocabOf (wordsOf t) (wordsOf t)) (wordsOf t) :=
    one_le_magTF _ _ (wordsOf_ne_nil t)
  set M : ℕ := magTF (vocabOf (wordsOf t) (wordsOf t)) (wordsOf t) with hMdef
  have hdot : dotTF (wordsOf t) (wordsOf t) = M := rfl
  have hs : Real.sqrt (M : ℝ) * Real.sqrt (M : ℝ) = (M : ℝ) :=
    Real.mul_self_sqrt (by positivity)
  rw [hdot, hs]
  rw [if_neg (by exact_mod_cast (by omega : M ≠ 0))]
  rw [div_self (by exact_mod_cast (by omega : M ≠ 0))]

theorem levDist_self (l : List Char) : levDist l l = 0 := by
  induction l with
  | nil => simp [levDist]
  | cons c rest ih => simp [levDist, ih]

theorem levenshteinSimilarity_self (s : String) : levenshteinSimilarity s s = 1 := by
  simp only [levenshteinSimilarity, levenshteinDistance, levDist_self, max_self]
  split_ifs <;> simp

theorem calculateSimilarity_self (s : String) : calculateSimilarity s s = 1 := by
  simp only [calculateSimilarity, jaccardSimilarity_self, cosineSimilarity_self,
    levenshteinSimilarity_self]
  norm_num

theorem jaccardSimilarity_comm (t1 t2 : String) :
    jaccardSimilarity t1 t2 = jaccardSimilarity t2 t1 := by
  simp only [jaccardSimilarity, Finset.inter_comm (wordSet t1), Finset.union_comm (wordSet t1)]

theorem vocabOf_comm (ws1 ws2 : List String) : vocabOf ws1 ws2 = vocabOf ws2 ws1 := by
  simp [vocabOf, List.toFinset_append, Finset.union_comm]

theorem dotTF_comm (ws1 ws2 : List String) : dotTF ws1 ws2 = dotTF ws2 ws1 := by
  unfold dotTF
  rw [vocabOf_comm]
  exact Finset.sum_congr rfl (fun w _ => Nat.mul_comm _ _)

theorem cosineSimilarity_comm (t1 t2 : String) :
    cosineSimilarity t1 t2 = cosineSimilarity t2 t1 := by
  simp only [cosineSimilarity]
  rw [dotTF_comm, vocabOf_comm,
    mul_comm (Real.sqrt ((magTF (vocabOf (wordsOf t2) (wordsOf t1)) (wordsOf t1) : ℕ) : ℝ))]

theorem levDist_comm (xs ys : List Char) : levDist xs ys = levDist ys xs := by
  induction xs, ys using levDist.induct with
  | case1 ys => cases ys <;> simp [levDist]
  | case2 x xs => simp [levDist]
  | case3 xs c ys ih => simp [levDist, ih]
  | case4 x xs y ys hne ih1 ih2 ih3 =>
    rw [levDist, levDist, if_neg hne, if_neg (Ne.symm hne), ih1, ih2, ih3]
    omega

theorem levenshteinSimilarity_comm (t1 t2 : String) :
    levenshteinSimilarity t1 t2 = levenshteinSimilarity t2 t1 := by
  simp only [levenshteinSimilarity, levenshteinDistance, levDist_comm t1.data, max_comm]

theorem jaccardSimilarity_mem (t1 t2 : String) :
    0 ≤ jaccardSimilarity t1 t2 ∧ jaccardSimilarity t1 t2 ≤ 1 := by
  simp only [jaccardSimilarity]
  split_ifs with h
  · norm_num
  · constructor
    · positivity
    · rw [div_le_one (by positivity)]
      exact_mod_cast Finset.card_le_card
        (Finset.Subset.trans Finset.inter_subset_left Finset.subset_union_left)

theorem cosineSimilarity_mem (t1 t2 : String) :
    0 ≤ cosineSimilarity t1 t2 ∧ cosineSimilarity t1 t2 ≤ 1 := by
  simp only [cosineSimilarity]
  split_ifs with h
  · norm_num
  · set ws1 := wordsOf t1
    set ws2 := wordsOf t2
    set vocab := vocabOf ws1 ws2 with hvocab
    have hmagpos : (0:ℝ) < Real.sqrt ((magTF vocab ws1 : ℕ) : ℝ)
        * Real.sqrt ((magTF vocab ws2 : ℕ) : ℝ) := by
      rcases lt_or_eq_of_le (by positivity :
        (0:ℝ) ≤ Real.sqrt ((magTF vocab ws1 : ℕ) : ℝ)
          * Real.sqrt ((magTF vocab ws2 : ℕ) : ℝ)) with h1 | h1
      · exact h1
      · exact absurd h1.symm h
    constructor
    · positivity
    · rw [div_le_one hmagpos]
      have hcs := Real.sum_mul_le_sqrt_mul_sqrt vocab
        (fun w => ((termFreq ws1 w : ℕ) : ℝ)) (fun w => ((termFreq ws2 w : ℕ) : ℝ))
      have hdot : ((dotTF ws1 ws2 : ℕ) : ℝ)
          = ∑ w ∈ vocab, ((termFreq ws1 w : ℕ) : ℝ) * ((termFreq ws2 w : ℕ) : ℝ) := by
        unfold dotTF
        push_cast
        rfl
      have hmag1 : ((magTF vocab ws1 : ℕ) : ℝ)
          = ∑ w ∈ vocab, ((termFreq ws1 w : ℕ) : ℝ) ^ 2 := by
        unfold magTF
        push_cast
        exact Finset.sum_congr rfl (fun w _ => by ring)
      have hmag2 : ((magTF vocab ws2 : ℕ) : ℝ)
          = ∑ w ∈ vocab, ((termFreq ws2 w : ℕ) : ℝ) ^ 2 := by
        unfold magTF
        push_cast
        exact Finset.sum_congr rfl (fun w _ => by ring)
      rw [hdot, hmag1, hmag2]
      exact hcs

theorem levDist_le_max (xs ys : List Char) :
    levDist xs ys ≤ max xs.length ys.length := by
  induction xs, ys using levDist.induct with
  | case1 ys => simp [levDist]
  | case2 x xs => simp [levDist]
  | case3 xs c ys ih =>
    rw [levDist, if_pos rfl]
    simp only [List.length_cons]
    omega
  | case4 x xs y ys hne ih1 ih2 ih3 =>
    rw [levDist, if_neg hne]
    simp only [List.length_cons] at ih1 ih2 ih3 ⊢
    omega

theorem levenshteinSimilarity_mem (t1 t2 : String) :
    0 ≤ levenshteinSimilarity t1 t2 ∧ levenshteinSimilarity t1 t2 ≤ 1 := by
  simp only [levenshteinSimilarity]
  split_ifs with h
  · norm_num
  · have hle : levenshteinDistance t1 t2 ≤ max t1.length t2.length :=
      levDist_le_max t1.data t2.data
    have hpos : (0:ℚ) < ((max t1.length t2.length : ℕ) : ℚ) := by
      exact_mod_cast Nat.pos_of_ne_zero h
    constructor
    · have : ((levenshteinDistance t1 t2 : ℕ) : ℚ)
          / ((max t1.length t2.length : ℕ) : ℚ) ≤ 1 := by
        rw [div_le_one hpos]
        exact_mod_cast hle
      linarith
    · have : (0:ℚ) ≤ ((levenshteinDistance t1 t2 : ℕ) : ℚ)
          / ((max t1.length t2.length : ℕ) : ℚ) := by positivity
      linarith

theorem calculateSimilarity_mem (a b : String) :
    0 ≤ calculateSimilarity a b ∧ calculateSimilarity a b ≤ 1 := by
  unfold calculateSimilarity
  obtain ⟨hj0, hj1⟩ := jaccardSimilarity_mem (normalize a) (normalize b)
  obtain ⟨hc0, hc1⟩ := cosineSimilarity_mem (normalize a) (normalize b)
  obtain ⟨hl0, hl1⟩ := levenshteinSimilarity_mem a b
  have hj0' : (0:ℝ) ≤ (jaccardSimilarity (normalize a) (normalize b) : ℝ) := by exact_mod_cast hj0
  have hj1' : (jaccardSimilarity (normalize a) (normalize b) : ℝ) ≤ 1 := by exact_mod_cast hj1
  have hl0' : (0:ℝ) ≤ (levenshteinSimilarity a b : ℝ) := by exact_mod_cast hl0
  have hl1' : (levenshteinSimilarity a b : ℝ) ≤ 1 := by exact_mod_cast hl1
  constructor <;> nlinarith

theorem calculateSimilarity_eq_spec (a b : String) :
    calculateSimilarity a b = specSimilarity a b := by
  unfold calculateSimilarity specSimilarity levenshteinSimilarity specNormalizedLevenshtein
  by_cases h : max a.length b.length = 0
  · rw [if_pos h]
    have hz : ((levenshteinDistance a b : ℚ) / ((max a.length b.length : ℕ) : ℚ)) = 0 := by
      rw [h]; push_cast; simp
    rw [hz]
    push_cast
    ring
  · rw [if_neg h]
    push_cast
    ring

theorem determineSeverity_spec (x : ℝ) :
    (x < 0.50 → determineSeverity x = .high) ∧
    (0.50 ≤ x → x < 0.70 → determineSeverity x = .medium) ∧
    (0.70 ≤ x → determineSeverity x = .low) := by
  unfold determineSeverity
  refine ⟨fun h => ?_, fun h1 h2 => ?_, fun h => ?_⟩ <;>
    split_ifs <;> first | rfl | linarith

theorem detectDrift_none_iff (n : String) (o m : Option String) :
    detectDrift n o m = none ↔ ((truthy o = false ∧ truthy m = false) ∨ o = m) := by
  unfold detectDrift
  split_ifs with h1 h2 h3 <;>
    simp_all [Bool.and_eq_true, Bool.or_eq_true, Bool.not_eq_true']

theorem detectDrift_one_truthy (n : String) (o m : Option String)
    (h : truthy o ≠ truthy m) :
    detectDrift n o m = some ⟨n, jsOr o "(none)", jsOr m "(none)", 0, True, .medium,
      if truthy o then "Intent removed" else "Intent added"⟩ := by
  have hom : o ≠ m := fun he => h (by rw [he])
  unfold detectDrift
  split_ifs with h1 h2 h3 <;>
    simp_all [Bool.and_eq_true, Bool.or_eq_true, Bool.not_eq_true']

theorem detectDrift_both_truthy (n a b : String) (ha : a ≠ "") (hb : b ≠ "")
    (hab : a ≠ b) :
    detectDrift n (some a) (some b)
      = some ⟨n, a, b, calculateSimilarity a b,
          calculateSimilarity a b < defaultThreshold,
          determineSeverity (calculateSimilarity a b),
          explainDrift a b (calculateSimilarity a b)⟩ := by
  unfold detectDrift
  split_ifs with h1 h2 h3 <;>
    simp_all [truthy, Bool.and_eq_true, Bool.or_eq_true, Bool.not_eq_true']

/-! ## Claim theorems: Intent Drift Detector -/

/-- C3, counterexample: the claim fails as stated.  The pair
`(oldIntent, newIntent) = ("", "x")` has both intents present and textually
different, and the drift record returned carries similarity 0 — which is
below 0.50, so the claim requires severity `high` — but its severity is
`medium`, because the empty string is falsy in JavaScript and the
added/removed branch is taken instead of the similarity computation. -/
theorem claim_C3_counterexample :
    detectDrift "n" (some "") (some "x")
      = some ⟨"n", "(none)", "x", 0, True, .medium, "Intent added"⟩
    ∧ ((0:ℝ) < 0.50)
    ∧ Severity.medium ≠ Severity.high :=
  ⟨rfl, by norm_num, by decide⟩

/-- C3 (amended): for every pair of present **non-empty** intent strings
that are textually different, `detectDrift` returns the drift built from
`calculateSimilarity`, which equals the spec formula
`0.4·Jaccard(normalize old, normalize new) + 0.4·CosineTF(normalize old,
normalize new) + 0.2·(1 − NormalizedLevenshtein(old, new))`; `isDrift` is
`similarity < threshold` with default threshold 0.80, and the severity is
`high` below 0.50, `medium` below 0.70, and `low` otherwise. -/
theorem claim_C3_amended (n a b : String) (ha : a ≠ "") (hb : b ≠ "") (hab : a ≠ b) :
    detectDrift n (some a) (some b)
      = some ⟨n, a, b, calculateSimilarity a b,
          calculateSimilarity a b < defaultThreshold,
          determineSeverity (calculateSimilarity a b),
          explainDrift a b (calculateSimilarity a b)⟩
    ∧ calculateSimilarity a b = specSimilarity a b
    ∧ defaultThreshold = 0.80
    ∧ (calculateSimilarity a b < 0.50 → determineSeverity (calculateSimilarity a b) = .high)
    ∧ (0.50 ≤ calculateSimilarity a b → calculateSimilarity a b < 0.70 →
        determineSeverity (calculateSimilarity a b) = .medium)
    ∧ (0.70 ≤ calculateSimilarity a b → determineSeverity (calculateSimilarity a b) = .low) :=
  ⟨detectDrift_both_truthy n a b ha hb hab, calculateSimilarity_eq_spec a b, rfl,
   (determineSeverity_spec _).1, (determineSeverity_spec _).2.1,
   (determineSeverity_spec _).2.2⟩

/-- Witness for C3 (amended) at the concrete pair ("a", "b"). -/
theorem claim_C3_witness :
    (("a" : String) ≠ "" ∧ ("b" : String) ≠ "" ∧ ("a" : String) ≠ "b")
    ∧ (detectDrift "n" (some "a") (some "b")
        = some ⟨"n", "a", "b", calculateSimilarity "a" "b",
            calculateSimilarity "a" "b" < defaultThreshold,
            determineSeverity (calculateSimilarity "a" "b"),
            explainDrift "a" "b" (calculateSimilarity "a" "b")⟩
      ∧ calculateSimilarity "a" "b" = specSimilarity "a" "b"
      ∧ defaultThreshold = 0.80
      ∧ (calculateSimilarity "a" "b" < 0.50 →
          determineSeverity (calculateSimilarity "a" "b") = .high)
      ∧ (0.50 ≤ calculateSimilarity "a" "b" → calculateSimilarity "a" "b" < 0.70 →
          determineSeverity (calculateSimilarity "a" "b") = .medium)
      ∧ (0.70 ≤ calculateSimilarity "a" "b" →
          determineSeverity (calculateSimilarity "a" "b") = .low)) :=
  ⟨⟨by decide, by decide, by decide⟩,
   claim_C3_amended "n" "a" "b" (by decide) (by decide) (by decide)⟩

/-- C4, counterexample: the claim fails as stated.  With the old intent
absent and the new intent present as the empty string, exactly one side is
present, so the claim requires a drift record — but `detectDrift` returns
`null`, because the empty string is falsy and the both-absent test fires. -/
theorem claim_C4_counterexample :
    detectDrift "n" none (some "") = none
    ∧ (none : Option String).isSome = false
    ∧ (some "" : Option String).isSome = true :=
  ⟨rfl, rfl, rfl⟩

/-- C4 (amended): `detectDrift` returns `null` exactly when both intents
are absent **or empty** (JavaScript-falsy), or the two values are
identical; in every other case it returns a drift record. -/
theorem claim_C4_amended (n : String) (o m : Option String) :
    detectDrift n o m = none ↔ ((truthy o = false ∧ truthy m = false) ∨ o = m) :=
  detectDrift_none_iff n o m

/-- C5, counterexample: the claim fails as stated.  With the old intent
present as the empty string and the new intent absent, exactly one side is
present, so the claim requires a drift with similarity 0 and severity
medium — but `detectDrift` returns `null` (the empty string is falsy). -/
theorem claim_C5_counterexample :
    detectDrift "n" (some "") none = none
    ∧ (some "" : Option String).isSome = true
    ∧ (none : Option String).isSome = false :=
  ⟨rfl, rfl, rfl⟩

/-- C5 (amended): whenever exactly one of the two intents is truthy
(present and non-empty) — the other being absent or empty — the returned
drift has similarity 0, severity medium, and explanation "Intent added"
(old side falsy) or "Intent removed" (new side falsy). -/
theorem claim_C5_amended (n : String) (o m : Option String)
    (h : truthy o ≠ truthy m) :
    detectDrift n o m = some ⟨n, jsOr o "(none)", jsOr m "(none)", 0, True, .medium,
      if truthy o then "Intent removed" else "Intent added"⟩ :=
  detectDrift_one_truthy n o m h

/-- Witness for C5 (amended): a present non-empty old intent against an
absent new intent yields the "Intent removed" drift. -/
theorem claim_C5_witness :
    truthy (some "hello") ≠ truthy (none : Option String)
    ∧ detectDrift "n" (some "hello") none
        = some ⟨"n", "hello", "(none)", 0, True, .medium, "Intent removed"⟩ :=
  ⟨by decide, by simpa [jsOr, truthy] using claim_C5_amended "n" (some "hello") none (by decide)⟩

set_option maxRecDepth 40000 in
/-- C7, counterexample: the claim fails on the code as stated.  For the
non-empty string "a b c" the program's binary64 arithmetic gives
`calculateSimilarity("a b c", "a b c") = 1.0000000000000002`
(`⟨4503599627370497, -52⟩ = 1 + 2^-52`), not 1.0 exactly: the squared-TF
magnitude is 3, `Math.sqrt(3) * Math.sqrt(3)` rounds to
2.9999999999999996, and the cosine 3 / 2.9999999999999996 rounds to one
ulp above 1. -/
theorem claim_C7_counterexample :
    ("a b c" : String) ≠ ""
    ∧ calculateSimilarityFP "a b c" "a b c" = ⟨4503599627370497, -52⟩
    ∧ (⟨4503599627370497, -52⟩ : FP) ≠ FP.ofNat 1 := by
  refine ⟨by decide, ?_, by decide⟩
  have h : levenshteinSimilarityFP "a b c" "a b c" = FP.ofNat 1 := by
    simp only [levenshteinSimilarityFP, levenshteinDistance, levDist_self]
    decide
  simp only [calculateSimilarityFP, h]
  decide

/-- C7 (amended): in the exact-arithmetic idealization of the JavaScript
numerics, similarity is reflexive — `calculateSimilarity(s, s) = 1` for
every non-empty string `s`; the program's IEEE-754 doubles can deviate
from 1.0 by one ulp (see the counterexample), so "= 1.0 exactly" holds of
the formula, not of the floating-point code. -/
theorem claim_C7_reflexive (s : String) (_h : s ≠ "") :
    calculateSimilarity s s = 1 :=
  calculateSimilarity_self s

/-- Witness for C7 at the concrete string "a". -/
theorem claim_C7_witness :
    ("a" : String) ≠ "" ∧ calculateSimilarity "a" "a" = 1 :=
  ⟨by decide, claim_C7_reflexive "a" (by decide)⟩

set_option maxRecDepth 40000 in
/-- C8, counterexample: the claim fails on the code as stated.  For the
pair of present intent strings ("a b c", "a b c") the program's binary64
arithmetic gives `calculateSimilarity = 1.0000000000000002`
(`⟨4503599627370497, -52⟩`), whose rational value exceeds 1, so the
computed similarity does not lie in the closed interval [0, 1]. -/
theorem claim_C8_counterexample :
    calculateSimilarityFP "a b c" "a b c" = ⟨4503599627370497, -52⟩
    ∧ (1 : ℚ) < FP.toRat ⟨4503599627370497, -52⟩ := by
  constructor
  · have h : levenshteinSimilarityFP "a b c" "a b c" = FP.ofNat 1 := by
      simp only [levenshteinSimilarityFP, levenshteinDistance, levDist_self]
      decide
    simp only [calculateSimilarityFP, h]
    decide
  · have h52 : ((-(-52 : ℤ)).toNat) = 52 := rfl
    rw [FP.toRat, if_neg (by decide), h52]
    norm_num

/-- C8 (amended): in the exact-arithmetic idealization,
`calculateSimilarity` always lies in [0, 1], and therefore so does the
`similarity` field of every drift record produced by `detectDrift`; the
program's doubles can exceed 1 by one ulp (see the counterexample), so the
closed interval holds of the formula, not of the floating-point code. -/
theorem claim_C8_in_unit_interval (a b n : String) (o m : Option String) (d : IntentDrift) :
    (0 ≤ calculateSimilarity a b ∧ calculateSimilarity a b ≤ 1)
    ∧ (detectDrift n o m = some d → 0 ≤ d.similarity ∧ d.similarity ≤ 1) := by
  refine ⟨calculateSimilarity_mem a b, fun h => ?_⟩
  unfold detectDrift at h
  split_ifs at h <;>
    first
      | exact Option.noConfusion h
      | (injection h with h
         rw [← h]
         exact ⟨le_refl 0, by norm_num⟩)
      | (injection h with h
         rw [← h]
         exact calculateSimilarity_mem _ _)

/-- Witness for C8: the drift for a removed intent carries similarity 0,
which is in [0, 1]. -/
theorem claim_C8_witness :
    detectDrift "n" (some "x") none
      = some ⟨"n", "x", "(none)", 0, True, .medium, "Intent removed"⟩
    ∧ (0 ≤ (0:ℝ) ∧ (0:ℝ) ≤ 1) :=
  ⟨rfl, (claim_C8_in_unit_interval "a" "b" "n" (some "x") none
    ⟨"n", "x", "(none)", 0, True, .medium, "Intent removed"⟩).2 rfl⟩

/-- C10: the similarity computation is symmetric, and so is each of its
three component metrics (Jaccard, term-frequency cosine, and Levenshtein
distance). -/
theorem claim_C10_symmetric (a b : String) :
    calculateSimilarity a b = calculateSimilarity b a
    ∧ jaccardSimilarity a b = jaccardSimilarity b a
    ∧ cosineSimilarity a b = cosineSimilarity b a
    ∧ levenshteinDistance a b = levenshteinDistance b a := by
  refine ⟨?_, jaccardSimilarity_comm a b, cosineSimilarity_comm a b,
    levDist_comm a.data b.data⟩
  simp only [calculateSimilarity]
  rw [jaccardSimilarity_comm, cosineSimilarity_comm, levenshteinSimilarity_comm]

/-! ## General lemmas about the Snapshot Comparator -/

theorem crBody_stash (env : CrEnv) (hc : String) (s1 : RepoState) :
    (crBody env hc s1).2.1.stash = s1.stash := by
  unfold crBody checkout
  split_ifs <;> simp

theorem checkout_ok_state (env : CrEnv) (t : String) (s s' : RepoState) (l : List GitEffect)
    (hne : t ≠ "HEAD") (h : checkout env t s = (.ok s', l)) :
    s' = ⟨t, env.contentOf t, s.stash⟩ := by
  unfold checkout at h
  split_ifs at h <;> simp_all

theorem checkout_ok_stash (env : CrEnv) (t : String) (s s' : RepoState) (l : List GitEffect)
    (h : checkout env t s = (.ok s', l)) : s'.stash = s.stash := by
  unfold checkout at h
  split_ifs at h <;> simp_all
  rw [← h.1]

/-- Commit-range mode restores the original state or surfaces an error,
provided the scan starts on a branch (`abbrevRefOk`, `isBranch`, head not
the literal "HEAD") with a clean working tree. -/
theorem scanCommitRange_restores (env : CrEnv) (baseRef headRef : String) (s0 : RepoState)
    (h1 : env.abbrevRefOk = true) (h2 : env.isBranch = true)
    (h3 : s0.head ≠ "HEAD") (h4 : s0.workTree = env.contentOf s0.head) :
    (scanCommitRange env baseRef headRef s0).2.1 = s0
      ∨ ∃ e, (scanCommitRange env baseRef headRef s0).1 = Except.error e := by
  have hcb : getCurrentBranch env s0 = s0.head := by
    unfold getCurrentBranch
    rw [h1, h2]
    simp
  simp only [scanCommitRange]
  split
  · right; exact ⟨_, rfl⟩
  · next baseCommit hbres =>
    split
    · right; exact ⟨_, rfl⟩
    · next headCommit hhres =>
      by_cases hf : (getChangedFilesBetweenCommits env.diffOut).isEmpty
      · rw [if_pos hf]
        left
        rfl
      · rw [if_neg hf, hcb]
        split
        · right; exact ⟨_, rfl⟩
        · next s1 t1 hck1 =>
          split
          · right; exact ⟨_, rfl⟩
          · next s3 t3 hck3 =>
            have hstash2 := crBody_stash env headCommit s1
            have hstash1 : s1.stash = s0.stash :=
              checkout_ok_stash env baseCommit s0 s1 t1 hck1
            have hs3 : s3 = s0 := by
              have hos := checkout_ok_state env s0.head _ s3 t3 h3 hck3
              rw [hos, hstash2, hstash1, ← h4]
            split
            · right; exact ⟨_, rfl⟩
            · left; simpa using hs3

/-- Working-tree mode restores the original state on every path, provided
the stash commands all succeed and there is no pre-existing stash entry. -/
theorem scanUncommitted_restores (env : WtEnv) (s0 : RepoState)
    (h1 : env.stashPushOk = true) (h2 : env.popOk = true)
    (h3 : env.catchPopOk = true) (h4 : s0.stash = []) :
    (scanUncommittedChanges env s0).2.1 = s0 := by
  obtain ⟨hd, wt, st⟩ := s0
  simp only at h4
  subst h4
  unfold scanUncommittedChanges getCurrentCommit stashChanges unstashChanges
  cases hr : env.revParseHead with
  | none => rfl
  | some hc =>
    by_cases hf : (getWorkingDirectoryChanges env.diffHeadOut).isEmpty
    · simp [hf]
    · by_cases hw : wt = env.baselineContent <;>
        cases hb : env.baseCrawlOk <;> cases hh : env.headCrawlOk <;>
          simp_all

/-! ## Claim theorems: Snapshot Comparator -/

/-- C1, counterexample: the claim fails as stated.  In working-tree mode,
when the mid-flow `git stash pop` fails (an external error), the failure is
swallowed with a warning: the scan returns success, yet the final state
(tree showing the committed content, the real tree still in the stash)
differs from the initial state — the invariant is violated without any
error being surfaced to the caller. -/
theorem claim_C1_counterexample :
    (scanUncommittedChanges
        ⟨some "h", some "A.dto.ts", true, true, false, true, true, 0, fun _ _ => []⟩
        ⟨"main", 1, []⟩).1
      = .ok ⟨"h", "working-directory", [], ["A.dto.ts"]⟩
    ∧ (scanUncommittedChanges
        ⟨some "h", some "A.dto.ts", true, true, false, true, true, 0, fun _ _ => []⟩
        ⟨"main", 1, []⟩).2.1
      ≠ ⟨"main", 1, []⟩ := by
  constructor
  · rfl
  · rw [show (scanUncommittedChanges
        ⟨some "h", some "A.dto.ts", true, true, false, true, true, 0, fun _ _ => []⟩
        ⟨"main", 1, []⟩).2.1 = ⟨"main", 0, [1]⟩ from rfl]
    decide

/-- C1 (amended): in commit-range mode — started on a branch with a clean
working tree — the original repository state is bit-identical after the
comparison or an error is surfaced to the caller, on every path (the
`finally` checkout restores the branch and its own failure propagates).
In working-tree mode the same holds only when the stash commands succeed
and no pre-existing stash entry exists: a failed stash pop is swallowed
with a warning, so restoration is not guaranteed in general (see the
counterexample). -/
theorem claim_C1_amended (cenv : CrEnv) (wenv : WtEnv) (s0 s1 : RepoState)
    (baseRef headRef : String)
    (habbrev : cenv.abbrevRefOk = true) (hbranch : cenv.isBranch = true)
    (hhead : s0.head ≠ "HEAD") (hclean : s0.workTree = cenv.contentOf s0.head)
    (hpush : wenv.stashPushOk = true) (hpop : wenv.popOk = true)
    (hcpop : wenv.catchPopOk = true) (hstash : s1.stash = []) :
    ((scanCommitRange cenv baseRef headRef s0).2.1 = s0
      ∨ ∃ e, (scanCommitRange cenv baseRef headRef s0).1 = Except.error e)
    ∧ (scanUncommittedChanges wenv s1).2.1 = s1 :=
  ⟨scanCommitRange_restores cenv baseRef headRef s0 habbrev hbranch hhead hclean,
   scanUncommitted_restores wenv s1 hpush hpop hcpop hstash⟩

/-- Witness for C1 (amended) with concrete all-successful environments. -/
theorem claim_C1_witness :
    (⟨"main", 0, []⟩ : RepoState).head ≠ "HEAD"
    ∧ (((scanCommitRange
          ⟨fun r => some ("c" ++ r), some "A.dto.ts", true, true, (fun _ => 0),
            (fun _ => true), true, true, fun _ _ => []⟩
          "base" "head" ⟨"main", 0, []⟩).2.1 = ⟨"main", 0, []⟩
        ∨ ∃ e, (scanCommitRange
          ⟨fun r => some ("c" ++ r), some "A.dto.ts", true, true, (fun _ => 0),
            (fun _ => true), true, true, fun _ _ => []⟩
          "base" "head" ⟨"main", 0, []⟩).1 = Except.error e)
      ∧ (scanUncommittedChanges
          ⟨some "h", some "A.dto.ts", true, true, true, true, true, 0, fun _ _ => []⟩
          ⟨"main", 5, []⟩).2.1 = ⟨"main", 5, []⟩) :=
  ⟨by decide,
   claim_C1_amended
    ⟨fun r => some ("c" ++ r), some "A.dto.ts", true, true, (fun _ => 0),
      (fun _ => true), true, true, fun _ _ => []⟩
    ⟨some "h", some "A.dto.ts", true, true, true, true, true, 0, fun _ _ => []⟩
    ⟨"main", 0, []⟩ ⟨"main", 5, []⟩ "base" "head"
    rfl rfl (by decide) rfl rfl rfl rfl rfl⟩

/-- C2, counterexample: the claim fails as stated.  The file "foo.ts"
matches none of the schema filename patterns, yet in commit-range mode
`getChangedFilesBetweenCommits` (which filters only by extension) lists it,
so `scanCommitRange` proceeds to the checkout/crawl sequence — a graph
rebuild — instead of returning the empty result. -/
theorem claim_C2_counterexample :
    isSchemaFile "foo.ts" = false
    ∧ getChangedFilesBetweenCommits (some "foo.ts") = ["foo.ts"]
    ∧ (scanCommitRange
        ⟨fun r => some ("c" ++ r), some "foo.ts", true, true, (fun _ => 0),
          (fun _ => true), true, true, fun _ _ => []⟩
        "base" "head" ⟨"main", 0, []⟩).2.2
      = [.checkoutCmd "cbase", .checkoutCmd "chead", .checkoutCmd "main"]
    ∧ (scanCommitRange
        ⟨fun r => some ("c" ++ r), some "foo.ts", true, true, (fun _ => 0),
          (fun _ => true), true, true, fun _ _ => []⟩
        "base" "head" ⟨"main", 0, []⟩).1
      = .ok ⟨"cbase", "chead", [], ["foo.ts"]⟩ :=
  ⟨by decide, by decide, rfl, rfl⟩

/-- C2 (amended): changed-file discovery is restricted to the schema
filename patterns only in working-tree mode; commit-range mode restricts
discovery merely to the extension set .ts/.tsx/.json/.yaml/.yml, so a
non-schema file with one of those extensions does trigger a rebuild
there. -/
theorem claim_C2_amended (diffOut : Option String) (f g : String)
    (hf : f ∈ getWorkingDirectoryChanges diffOut)
    (hg : g ∈ getChangedFilesBetweenCommits diffOut) :
    isSchemaFile f = true ∧ isCommitRangeCandidate g = true := by
  constructor
  · unfold getWorkingDirectoryChanges at hf
    cases diffOut with
    | none => cases hf
    | some out => exact (List.mem_filter.mp hf).2
  · unfold getChangedFilesBetweenCommits at hg
    cases diffOut with
    | none => cases hg
    | some out => exact (List.mem_filter.mp hg).2

/-- Witness for C2 (amended) on the diff output "A.dto.ts\nfoo.ts". -/
theorem claim_C2_witness :
    ("A.dto.ts" ∈ getWorkingDirectoryChanges (some "A.dto.ts\nfoo.ts")
      ∧ "foo.ts" ∈ getChangedFilesBetweenCommits (some "A.dto.ts\nfoo.ts"))
    ∧ (isSchemaFile "A.dto.ts" = true ∧ isCommitRangeCandidate "foo.ts" = true) :=
  ⟨⟨by decide, by decide⟩,
   claim_C2_amended (some "A.dto.ts\nfoo.ts") "A.dto.ts" "foo.ts" (by decide) (by decide)⟩

/-- C6: in working-tree mode, when no changed schema files are discovered,
the scan returns `{diffs: [], filesChanged: []}`, the repository state is
untouched, and the trace of git-mutating commands is empty — no stash
push, no stash pop, no checkout. -/
theorem claim_C6_no_schema_changes (env : WtEnv) (s0 : RepoState) (hc : String)
    (h1 : env.revParseHead = some hc)
    (h2 : getWorkingDirectoryChanges env.diffHeadOut = []) :
    scanUncommittedChanges env s0
      = (.ok ⟨hc, "working-directory", [], []⟩, s0, []) := by
  unfold scanUncommittedChanges getCurrentCommit
  rw [h1]
  simp [h2]

/-- Witness for C6: a working tree whose only change is a non-schema file
yields the empty result with no git mutation. -/
theorem claim_C6_witness :
    ((⟨some "abc", some "foo.md\n", true, true, true, true, true, 0,
        fun _ _ => []⟩ : WtEnv).revParseHead = some "abc"
      ∧ getWorkingDirectoryChanges (some "foo.md\n") = [])
    ∧ scanUncommittedChanges
        ⟨some "abc", some "foo.md\n", true, true, true, true, true, 0, fun _ _ => []⟩
        ⟨"main", 7, []⟩
      = (.ok ⟨"abc", "working-directory", [], []⟩, ⟨"main", 7, []⟩, []) :=
  ⟨⟨rfl, by decide⟩,
   claim_C6_no_schema_changes
    ⟨some "abc", some "foo.md\n", true, true, true, true, true, 0, fun _ _ => []⟩
    ⟨"main", 7, []⟩ "abc" rfl (by decide)⟩

/-- C9: a failing `git rev-parse` makes `getCurrentCommit` raise "Not a git
repository or git not available"; an unresolvable ref makes `resolveRef`
raise "Failed to resolve git ref", and `scanCommitRange` then returns that
error with the state untouched and no git command issued — the failure is
not retried and not converted into an empty or zero-change result. -/
theorem claim_C9_fatal_errors (env : CrEnv) (s0 : RepoState) (baseRef headRef r : String) :
    getCurrentCommit none = .error "Not a git repository or git not available"
    ∧ (env.revParse r = none →
        resolveRef env r = .error ("Failed to resolve git ref: " ++ r))
    ∧ (env.revParse baseRef = none →
        scanCommitRange env baseRef headRef s0
          = (.error ("Failed to resolve git ref: " ++ baseRef), s0, []))
    ∧ (∀ bc, env.revParse baseRef = some bc → env.revParse headRef = none →
        scanCommitRange env baseRef headRef s0
          = (.error ("Failed to resolve git ref: " ++ headRef), s0, [])) := by
  refine ⟨rfl, fun h => ?_, fun h => ?_, fun bc hb hh => ?_⟩
  · unfold resolveRef
    rw [h]
  · unfold scanCommitRange resolveRef
    rw [h]
  · unfold scanCommitRange resolveRef
    rw [hb, hh]

/-- Witness for C9 at two concrete environments: one where the base ref is
unresolvable and one where only the head ref is. -/
theorem claim_C9_witness :
    scanCommitRange
        ⟨fun _ => none, some "A.dto.ts", true, true, (fun _ => 0), (fun _ => true),
          true, true, fun _ _ => []⟩
        "base" "head" ⟨"main", 0, []⟩
      = (.error ("Failed to resolve git ref: " ++ "base"), ⟨"main", 0, []⟩, [])
    ∧ scanCommitRange
        ⟨fun q => if q = "base" then some "bc" else none, some "A.dto.ts", true, true,
          (fun _ => 0), (fun _ => true), true, true, fun _ _ => []⟩
        "base" "head" ⟨"main", 0, []⟩
      = (.error ("Failed to resolve git ref: " ++ "head"), ⟨"main", 0, []⟩, []) :=
  ⟨(claim_C9_fatal_errors
      ⟨fun _ => none, some "A.dto.ts", true, true, (fun _ => 0), (fun _ => true),
        true, true, fun _ _ => []⟩
      ⟨"main", 0, []⟩ "base" "head" "x").2.2.1 rfl,
   (claim_C9_fatal_errors
      ⟨fun q => if q = "base" then some "bc" else none, some "A.dto.ts", true, true,
        (fun _ => 0), (fun _ => true), true, true, fun _ _ => []⟩
      ⟨"main", 0, []⟩ "base" "head" "x").2.2.2 "bc" (by decide) (by decide)⟩

end Dotto
